import Mathlib

/-!
Verification of the CompositeDataReader orchestrator of the CNTK reader
pipeline (Source/Readers/CompositeDataReader.cpp, together with the
ImageReader ByteReader declarations).

The C++ code is shallowly embedded as a state machine.  The packer, the
randomizer and the memory provider live outside the translated fragment;
per the code they are only called through `m_packer->ReadMinibatch()` and
`m_randomizer->StartEpoch(config)`, so the packer is abstracted as the
deterministic sequence of `Minibatch` values that successive
`ReadMinibatch` executions produce (`packer : Nat → Minibatch`, with a
counter of executed reads in the reader state), and the randomizer call is
recorded as a trace event.  `std::future` semantics are modelled
faithfully: with `launch::async` the body runs at launch time, with
`launch::deferred` it runs when the future is first waited on / got;
`get` invalidates the future.  C `assert` failures and undefined behaviour
(dereferencing `begin()` of an empty map, out-of-bounds `operator[]`) are
modelled as fatal faults in an `Except`.
-/

namespace CNTK

/-- Storage kind of a stream (StorageType in ReaderLib).  Modelled from the
spec: "storage kind — dense/sparse". -/
inductive StorageType where
  | dense
  | sparse
deriving DecidableEq, Repr

/-- Sample shape of a stream; only its element count is consumed by the
translated fragment (`m_sampleLayout->GetNumElements()`). -/
structure TensorShape where
  numElements : Nat
deriving DecidableEq, Repr

/-- StreamDescription.  Modelled from the spec: "identifies one logical
data channel (id, name, storage kind — dense/sparse, sample shape)". -/
structure StreamDescription where
  id : Nat
  name : String
  storageType : StorageType
  sampleLayout : TensorShape
deriving DecidableEq, Repr

/-- MBLayout, reduced to the two observables the translated fragment
reads: `GetNumParallelSequences()` and `GetNumCols()`.  `CopyFrom` is
value copy. -/
structure MBLayout where
  numParallelSequences : Nat
  numCols : Nat
deriving DecidableEq, Repr

/-- One stream of a packed minibatch (StreamMinibatch in ReaderLib): a
layout plus the packed data block, the latter abstracted by an opaque
payload tag standing for the pointed-to buffer. -/
structure StreamMinibatchData where
  layout : MBLayout
  payload : Nat
deriving DecidableEq, Repr

/-- Minibatch.  Modelled from the spec: "{per-stream packed data blocks,
endOfEpoch flag}". -/
structure Minibatch where
  data : List StreamMinibatchData
  endOfEpoch : Bool
deriving DecidableEq, Repr

/-- A caller-supplied output matrix; the fragment reads only its device id
(`GetDeviceId()`). -/
structure MatrixRef where
  deviceId : Int
deriving DecidableEq, Repr

/-- EpochConfiguration.  Modelled from the spec: "{workerRank,
numberOfWorkers, minibatchSizeInSamples, totalEpochSizeInSamples,
epochIndex}"; the sizes are sample counts (size_t in the code). -/
structure EpochConfiguration where
  workerRank : Nat
  numberOfWorkers : Nat
  minibatchSizeInSamples : Nat
  totalEpochSizeInSamples : Nat
  epochIndex : Nat
deriving DecidableEq, Repr

/-- Fatal outcomes of the translated fragment: `RuntimeError(...)`,
failed C `assert`, and undefined behaviour (empty-map `begin()`
dereference, out-of-bounds vector indexing). -/
inductive Fault where
  | runtimeError (msg : String)
  | assertFailed
  | undefinedBehavior
deriving DecidableEq, Repr

/-- Arguments of one `SetValue` call issued by the copy loop of
`GetMinibatch`. -/
structure SetValueCall where
  name : String
  rows : Nat
  cols : Nat
  deviceId : Int
  payload : Nat
deriving DecidableEq, Repr

/-- Observable actions of the fragment, in program order. -/
inductive Event where
  | launchTask
  | awaitTask
  | readExec (i : Nat)
  | randomizerStart (config : EpochConfiguration)
  | packerCreated (frameMode : Bool)
  | setValue (c : SetValueCall)
deriving DecidableEq, Repr

/-- The single prefetch slot `m_prefetchTask`.  `ready mb` is an
`std::async(launch::async, ...)` future whose body has produced `mb`;
`deferredPending` is an un-run `launch::deferred` future. -/
inductive TaskState where
  | ready (mb : Minibatch)
  | deferredPending
deriving DecidableEq, Repr

/-- `m_launchType`: `launch::async` when prefetch is enabled, otherwise
`launch::deferred` (CompositeDataReader::Init). -/
inductive LaunchType where
  | async
  | deferred
deriving DecidableEq, Repr

/-- The mutable state of a CompositeDataReader that the translated
fragment touches: `m_endOfEpoch`, `m_prefetchTask`, `m_layout`,
`m_streams`, `m_nameToStreamId`; `reads` counts the `ReadMinibatch`
executions performed so far against the abstract packer stream. -/
structure ReaderState where
  endOfEpoch : Bool
  prefetchTask : Option TaskState
  reads : Nat
  layout : MBLayout
  streams : List StreamDescription
  nameToStreamId : List (String × Nat)
deriving DecidableEq, Repr

/-- `m_prefetchTask = std::async(m_launchType, [this]() { return
m_packer->ReadMinibatch(); })`: with `launch::async` the read executes at
launch; with `launch::deferred` nothing runs yet. -/
def launchPrefetch (packer : Nat → Minibatch) (lt : LaunchType) (s : ReaderState) :
    ReaderState × List Event :=
  match lt with
  | .async =>
      ({ s with prefetchTask := some (.ready (packer s.reads)), reads := s.reads + 1 },
       [Event.launchTask, Event.readExec s.reads])
  | .deferred =>
      ({ s with prefetchTask := some .deferredPending }, [Event.launchTask])

/-- `m_prefetchTask.get()` (also used for `.wait()`): joins an async
future, or runs a deferred body now; the future is consumed. -/
def taskGet (packer : Nat → Minibatch) (s : ReaderState) (t : TaskState) :
    Minibatch × ReaderState × List Event :=
  match t with
  | .ready mb => (mb, { s with prefetchTask := none }, [Event.awaitTask])
  | .deferredPending =>
      (packer s.reads,
       { s with prefetchTask := none, reads := s.reads + 1 },
       [Event.readExec s.reads, Event.awaitTask])

/-- CompositeDataReader::StartEpoch (lines 280-309): rejects
`m_totalEpochSizeInSamples <= 0` with a RuntimeError before calling
`m_randomizer->StartEpoch` and before constructing a packer; otherwise
starts the randomizer epoch and creates the SampleModePacker
(`m_frameMode`) or SequencePacker. -/
def startEpoch (frameMode : Bool) (config : EpochConfiguration) :
    Except Fault (List Event) :=
  if config.totalEpochSizeInSamples ≤ 0 then
    Except.error (Fault.runtimeError "Unsupported minibatch size")
  else
    Except.ok [Event.randomizerStart config, Event.packerCreated frameMode]

/-- CompositeDataReader::StartDistributedMinibatchLoop (lines 148-178):
builds the EpochConfiguration, clears `m_endOfEpoch`, waits out a
still-valid prefetch task, reconfigures the epoch, then launches exactly
one new prefetch task. -/
def startDistributedMinibatchLoop (packer : Nat → Minibatch) (lt : LaunchType)
    (frameMode : Bool) (requestedMBSize epoch subsetNum numSubsets
    requestedEpochSamples : Nat) (s : ReaderState) :
    Except Fault (ReaderState × List Event) :=
  let config : EpochConfiguration :=
    { workerRank := subsetNum
      numberOfWorkers := numSubsets
      minibatchSizeInSamples := requestedMBSize
      totalEpochSizeInSamples := requestedEpochSamples
      epochIndex := epoch }
  let s1 : ReaderState := { s with endOfEpoch := false }
  let waited : ReaderState × List Event :=
    match s1.prefetchTask with
    | some t =>
        let r := taskGet packer s1 t
        (r.2.1, r.2.2)
    | none => (s1, [])
  match startEpoch frameMode config with
  | Except.error f => Except.error f
  | Except.ok ev2 =>
      let launched := launchPrefetch packer lt waited.1
      Except.ok (launched.1, waited.2 ++ ev2 ++ launched.2)

/-- CompositeDataReader::StartMinibatchLoop (lines 142-145): delegates to
the distributed form with rank 0 of 1. -/
def startMinibatchLoop (packer : Nat → Minibatch) (lt : LaunchType)
    (frameMode : Bool) (mbSize epoch requestedEpochSamples : Nat)
    (s : ReaderState) : Except Fault (ReaderState × List Event) :=
  startDistributedMinibatchLoop packer lt frameMode mbSize epoch 0 1
    requestedEpochSamples s

/-- `m_nameToStreamId` lookup (`find` / `operator[]` on the populated
map). -/
def lookupId : List (String × Nat) → String → Option Nat
  | [], _ => none
  | p :: rest, n => if p.1 = n then some p.2 else lookupId rest n

/-- The copy loop of GetMinibatch (lines 215-228): for each requested
stream, assert it is a known name, fetch the packed stream, copy its
layout into `m_layout`, and `SetValue` with rows =
`m_streams[streamId]->m_sampleLayout->GetNumElements()` and cols =
`m_layout->GetNumCols()`. -/
def copyStreams (minibatch : Minibatch) (s : ReaderState) :
    List (String × MatrixRef) → Except Fault (ReaderState × List Event)
  | [] => Except.ok (s, [])
  | mx :: rest =>
    match lookupId s.nameToStreamId mx.1 with
    | none => Except.error Fault.assertFailed
    | some streamId =>
      match minibatch.data[streamId]?, s.streams[streamId]? with
      | some stream, some sd =>
        let s1 : ReaderState := { s with layout := stream.layout }
        let columnNumber := s1.layout.numCols
        let rowNumber := sd.sampleLayout.numElements
        let ev := Event.setValue
          { name := mx.1, rows := rowNumber, cols := columnNumber,
            deviceId := mx.2.deviceId, payload := stream.payload }
        match copyStreams minibatch s1 rest with
        | Except.error f => Except.error f
        | Except.ok (s2, evs) => Except.ok (s2, ev :: evs)
      | _, _ => Except.error Fault.undefinedBehavior

/-- CompositeDataReader::GetMinibatch (lines 181-237).  Returns the bool
result, the successor state and the emitted events; fatal asserts and
undefined behaviour abort with a `Fault`. -/
def getMinibatch (packer : Nat → Minibatch) (lt : LaunchType)
    (matrices : List (String × MatrixRef)) (s : ReaderState) :
    Except Fault (Bool × ReaderState × List Event) :=
  if s.endOfEpoch then
    Except.ok (false, s, [])
  else
    match matrices.head? with
    | none => Except.error Fault.undefinedBehavior
    | some first =>
      let deviceId := first.2.deviceId
      if matrices.any (fun mx => decide (mx.2.deviceId ≠ deviceId)) then
        Except.error Fault.assertFailed
      else
        match s.prefetchTask with
        | none => Except.error Fault.assertFailed
        | some t =>
          let got := taskGet packer s t
          let minibatch := got.1
          let s1 := got.2.1
          let ev1 := got.2.2
          let s2 : ReaderState :=
            if minibatch.endOfEpoch then { s1 with endOfEpoch := true } else s1
          if minibatch.endOfEpoch && minibatch.data.isEmpty then
            Except.ok (false, s2, ev1)
          else
            let copied : Except Fault (ReaderState × List Event) :=
              if minibatch.data.isEmpty then Except.ok (s2, [])
              else copyStreams minibatch s2 matrices
            match copied with
            | Except.error f => Except.error f
            | Except.ok (s3, ev2) =>
              let launched := launchPrefetch packer lt s3
              Except.ok (!minibatch.data.isEmpty, launched.1,
                ev1 ++ ev2 ++ launched.2)

/-- CompositeDataReader::DataEnd (lines 239-244): fixed `false`, value
never used. -/
def dataEnd : Bool := false

/-- CompositeDataReader::CopyMBLayoutTo: the caller receives a value copy
of `m_layout`. -/
def copyMBLayoutTo (s : ReaderState) : MBLayout := s.layout

/-- CompositeDataReader::GetNumParallelSequences. -/
def getNumParallelSequences (s : ReaderState) : Nat :=
  s.layout.numParallelSequences

/-- The stream-description publication loop of CompositeDataReader::Init
(lines 132-138): each bundler stream is copied with its storage type
overwritten to dense. -/
def initStreams (bundlerStreams : List StreamDescription) :
    List StreamDescription :=
  bundlerStreams.map (fun sd => { sd with storageType := StorageType.dense })

/-- The `m_nameToStreamId` population of Init: name mapped to the
bundler stream id. -/
def initNameMap (bundlerStreams : List StreamDescription) :
    List (String × Nat) :=
  bundlerStreams.map (fun sd => (sd.name, sd.id))

/-- Reader state right after Init: no prefetch task yet, `m_layout`
initialised to `Init(numSeqs[0], 0)`, streams and the name map published
from the bundler descriptions. -/
def initReader (bundlerStreams : List StreamDescription) (numSeqs0 : Nat) :
    ReaderState :=
  { endOfEpoch := false
    prefetchTask := none
    reads := 0
    layout := { numParallelSequences := numSeqs0, numCols := 0 }
    streams := initStreams bundlerStreams
    nameToStreamId := initNameMap bundlerStreams }

/-- One consumer-side call into the reader: an epoch (re)start or a
minibatch retrieval. -/
inductive Op where
  | startLoop (requestedMBSize epoch subsetNum numSubsets
      requestedEpochSamples : Nat)
  | getMb (matrices : List (String × MatrixRef))
deriving DecidableEq, Repr

/-- Result of one operation: successor state, events, and the bool result
when the operation was a GetMinibatch. -/
structure StepRes where
  state : ReaderState
  events : List Event
  ret : Option Bool
deriving DecidableEq, Repr

/-- Dispatch one consumer call against the reader. -/
def stepOp (packer : Nat → Minibatch) (lt : LaunchType) (frameMode : Bool)
    (op : Op) (s : ReaderState) : Except Fault StepRes :=
  match op with
  | .startLoop mbSize epoch subsetNum numSubsets totalSamples =>
    match startDistributedMinibatchLoop packer lt frameMode mbSize epoch
        subsetNum numSubsets totalSamples s with
    | Except.error f => Except.error f
    | Except.ok (s1, ev) => Except.ok { state := s1, events := ev, ret := none }
  | .getMb matrices =>
    match getMinibatch packer lt matrices s with
    | Except.error f => Except.error f
    | Except.ok (b, s1, ev) => Except.ok { state := s1, events := ev, ret := some b }

/-- Run a sequence of consumer calls; a fatal fault halts the run (an
abort delivers nothing further). -/
def run (packer : Nat → Minibatch) (lt : LaunchType) (frameMode : Bool) :
    ReaderState → List Op → ReaderState × List Event
  | s, [] => (s, [])
  | s, op :: rest =>
    match stepOp packer lt frameMode op s with
    | Except.error _ => (s, [])
    | Except.ok r =>
      let tail := run packer lt frameMode r.state rest
      (tail.1, r.events ++ tail.2)

/-- The SetValue calls of an event list, in order: the data actually
delivered to the caller. -/
def deliveredOf (evs : List Event) : List SetValueCall :=
  evs.filterMap (fun e =>
    match e with
    | Event.setValue c => some c
    | _ => none)

/-- Per-call observation: what the training loop can see of one call (its
result, the data copied into its matrices, the reader layout after the
call, or the fault that aborted it).  Task-timing events are not
observable. -/
inductive Obs where
  | started (layout : MBLayout)
  | got (ret : Bool) (delivered : List SetValueCall) (layout : MBLayout)
  | fault (f : Fault)
deriving DecidableEq, Repr

/-- Observation of one step result. -/
def obsOf (r : StepRes) : Obs :=
  match r.ret with
  | some b => Obs.got b (deliveredOf r.events) r.state.layout
  | none => Obs.started r.state.layout

/-- The observable trace of a run: one observation per call, ending at
the first fault. -/
def observe (packer : Nat → Minibatch) (lt : LaunchType) (frameMode : Bool) :
    ReaderState → List Op → List Obs
  | _, [] => []
  | s, op :: rest =>
    match stepOp packer lt frameMode op s with
    | Except.error f => [Obs.fault f]
    | Except.ok r => obsOf r :: observe packer lt frameMode r.state rest

/-- Scan an event trace keeping the number of outstanding prefetch tasks:
a launch is admissible only when no task is outstanding, an await only
when one is; `none` marks a violation. -/
def pendStep : Nat → List Event → Option Nat
  | p, [] => some p
  | p, Event.launchTask :: rest => if p = 0 then pendStep 1 rest else none
  | p, Event.awaitTask :: rest => if p = 1 then pendStep 0 rest else none
  | p, _ :: rest => pendStep p rest

/-- Number of outstanding prefetch tasks in a reader state: one when the
slot holds a valid future, zero otherwise. -/
def pend (s : ReaderState) : Nat :=
  if s.prefetchTask.isSome then 1 else 0

/-- Simulation relation between an async-mode and a deferred-mode reader:
same consumer-visible fields; an async slot holds the value the deferred
slot will compute, and the async read counter is one ahead while a task
is in flight. -/
def Related (packer : Nat → Minibatch) (a d : ReaderState) : Prop :=
  a.endOfEpoch = d.endOfEpoch ∧ a.layout = d.layout ∧ a.streams = d.streams ∧
  a.nameToStreamId = d.nameToStreamId ∧
  ((a.prefetchTask = none ∧ d.prefetchTask = none ∧ a.reads = d.reads) ∨
   (a.prefetchTask = some (TaskState.ready (packer d.reads)) ∧
    d.prefetchTask = some TaskState.deferredPending ∧ a.reads = d.reads + 1))

/-- Sample stream description for concrete evaluations (sparse at the
bundler, to exercise the dense overwrite of Init). -/
def sdW : StreamDescription :=
  { id := 0, name := "features", storageType := StorageType.sparse,
    sampleLayout := { numElements := 3 } }

/-- Sample mid-epoch minibatch. -/
def mbFull : Minibatch :=
  { data := [{ layout := { numParallelSequences := 1, numCols := 4 }, payload := 7 }],
    endOfEpoch := false }

/-- Sample final partial minibatch: non-empty data with the end-of-epoch
flag set. -/
def mbLast : Minibatch :=
  { data := [{ layout := { numParallelSequences := 1, numCols := 2 }, payload := 8 }],
    endOfEpoch := true }

/-- Sample clean-exhaustion minibatch: empty data, end-of-epoch set. -/
def mbDrained : Minibatch :=
  { data := [], endOfEpoch := true }

/-- Sample packer stream: one full minibatch, one final partial one, then
exhaustion. -/
def pkW : Nat → Minibatch :=
  fun i => if i = 0 then mbFull else if i = 1 then mbLast else mbDrained

/-- Sample caller matrices, all on one device. -/
def mxW : List (String × MatrixRef) := [("features", { deviceId := -1 })]

/-- Sample caller matrices on two different devices. -/
def mxBad : List (String × MatrixRef) :=
  [("features", { deviceId := -1 }), ("labels", { deviceId := 0 })]

/-- Reader freshly initialised over the sample stream. -/
def rsInit : ReaderState := initReader [sdW] 1

/-- Sample reader state already at end of epoch. -/
def rsEoE : ReaderState := { rsInit with endOfEpoch := true }

/-- Sample reader state with a completed prefetch task in the slot. -/
def rsReady (mb : Minibatch) : ReaderState :=
  { rsInit with prefetchTask := some (TaskState.ready mb), reads := 1 }

/-- Sample epoch configuration with zero total epoch size. -/
def ecZero : EpochConfiguration :=
  { workerRank := 0, numberOfWorkers := 1, minibatchSizeInSamples := 4,
    totalEpochSizeInSamples := 0, epochIndex := 0 }

/-- Sample epoch configuration with ten samples per epoch. -/
def ecTen : EpochConfiguration :=
  { workerRank := 0, numberOfWorkers := 1, minibatchSizeInSamples := 4,
    totalEpochSizeInSamples := 10, epochIndex := 0 }

/-- Events that neither launch nor await a prefetch task. -/
def taskNeutral : Event → Bool
  | Event.launchTask => false
  | Event.awaitTask => false
  | _ => true

/-- Expected reader state after retrieving the first sample minibatch
from `rsReady mbFull` in async mode. -/
def rsAfterFirst : ReaderState :=
  { endOfEpoch := false, prefetchTask := some (TaskState.ready mbLast),
    reads := 2, layout := { numParallelSequences := 1, numCols := 4 },
    streams := initStreams [sdW], nameToStreamId := initNameMap [sdW] }

/-- Expected events of that retrieval. -/
def evAfterFirst : List Event :=
  [Event.awaitTask,
   Event.setValue
     { name := "features", rows := 3, cols := 4, deviceId := -1, payload := 7 },
   Event.launchTask, Event.readExec 1]

/-- Expected reader state after retrieving the final partial minibatch
from `rsReady mbLast` in async mode. -/
def rsAfterLast : ReaderState :=
  { endOfEpoch := true, prefetchTask := some (TaskState.ready mbLast),
    reads := 2, layout := { numParallelSequences := 1, numCols := 2 },
    streams := initStreams [sdW], nameToStreamId := initNameMap [sdW] }

/-- Expected events of that final retrieval. -/
def evAfterLast : List Event :=
  [Event.awaitTask,
   Event.setValue
     { name := "features", rows := 3, cols := 2, deviceId := -1, payload := 8 },
   Event.launchTask, Event.readExec 1]

/-- Expected reader state after meeting clean exhaustion from
`rsReady mbDrained`. -/
def rsAfterDrained : ReaderState :=
  { endOfEpoch := true, prefetchTask := none, reads := 1,
    layout := { numParallelSequences := 1, numCols := 0 },
    streams := initStreams [sdW], nameToStreamId := initNameMap [sdW] }

/-- The tail of GetMinibatch after the prefetch task has been got: the
end-of-epoch bookkeeping, the copy loop and the relaunch, parameterised
by the received minibatch, the post-get state and the get events. -/
def gmTail (packer : Nat → Minibatch) (lt : LaunchType)
    (matrices : List (String × MatrixRef)) (mb : Minibatch) (w : ReaderState)
    (ev1 : List Event) : Except Fault (Bool × ReaderState × List Event) :=
  let s2 : ReaderState :=
    if mb.endOfEpoch then { w with endOfEpoch := true } else w
  if mb.endOfEpoch && mb.data.isEmpty then
    Except.ok (false, s2, ev1)
  else
    match (if mb.data.isEmpty then Except.ok (s2, ([] : List Event))
           else copyStreams mb s2 matrices) with
    | Except.error f => Except.error f
    | Except.ok pr =>
      Except.ok (!mb.data.isEmpty, (launchPrefetch packer lt pr.1).1,
        ev1 ++ pr.2 ++ (launchPrefetch packer lt pr.1).2)

/-- The tail of StartDistributedMinibatchLoop after the wait: epoch
reconfiguration and the launch of the single new prefetch task. -/
def slTail (packer : Nat → Minibatch) (lt : LaunchType) (frameMode : Bool)
    (config : EpochConfiguration) (w : ReaderState) (ev1 : List Event) :
    Except Fault (ReaderState × List Event) :=
  match startEpoch frameMode config with
  | Except.error f => Except.error f
  | Except.ok ev2 =>
      Except.ok ((launchPrefetch packer lt w).1,
        ev1 ++ ev2 ++ (launchPrefetch packer lt w).2)

/-- C4: an epoch configuration with totalEpochSizeInSamples <= 0 makes
StartEpoch fail with a RuntimeError before the randomizer epoch start is
invoked and before any packer is created (no I/O action is emitted);
with totalEpochSizeInSamples > 0 this error is not raised and the
randomizer start precedes packer creation. -/
theorem startEpoch_rejects_empty_epoch (frameMode : Bool)
    (config : EpochConfiguration) :
    (config.totalEpochSizeInSamples ≤ 0 →
      startEpoch frameMode config =
        Except.error (Fault.runtimeError "Unsupported minibatch size")) ∧
    (0 < config.totalEpochSizeInSamples →
      startEpoch frameMode config =
        Except.ok [Event.randomizerStart config, Event.packerCreated frameMode]) := by
  constructor
  · intro h
    simp [startEpoch, h]
  · intro h
    simp [startEpoch, Nat.not_le.mpr h]

/-- Witness for C4 at concrete configurations: epoch size 0 is rejected,
epoch size 10 is not. -/
theorem startEpoch_rejects_empty_epoch_witness :
    startEpoch true ecZero =
      Except.error (Fault.runtimeError "Unsupported minibatch size") ∧
    startEpoch true ecTen =
      Except.ok [Event.randomizerStart ecTen, Event.packerCreated true] :=
  ⟨(startEpoch_rejects_empty_epoch true ecZero).1 (by decide),
   (startEpoch_rejects_empty_epoch true ecTen).2 (by decide)⟩

/-- Launching a prefetch touches only the task slot and the read counter. -/
theorem launchPrefetch_fields (packer : Nat → Minibatch) (lt : LaunchType)
    (s : ReaderState) :
    ((launchPrefetch packer lt s).1).endOfEpoch = s.endOfEpoch ∧
    ((launchPrefetch packer lt s).1).layout = s.layout ∧
    ((launchPrefetch packer lt s).1).streams = s.streams ∧
    ((launchPrefetch packer lt s).1).nameToStreamId = s.nameToStreamId ∧
    ((launchPrefetch packer lt s).1).prefetchTask.isSome = true := by
  cases lt <;> simp [launchPrefetch]

/-- Waiting on a task touches only the task slot and the read counter. -/
theorem taskGet_fields (packer : Nat → Minibatch) (s : ReaderState)
    (t : TaskState) :
    ((taskGet packer s t).2.1).endOfEpoch = s.endOfEpoch ∧
    ((taskGet packer s t).2.1).layout = s.layout ∧
    ((taskGet packer s t).2.1).streams = s.streams ∧
    ((taskGet packer s t).2.1).nameToStreamId = s.nameToStreamId ∧
    ((taskGet packer s t).2.1).prefetchTask = none := by
  cases t <;> simp [taskGet]

/-- A successful StartDistributedMinibatchLoop leaves the reader with the
end-of-epoch flag cleared, the published streams untouched, and a valid
prefetch task in the slot. -/
theorem startLoop_ok_state (packer : Nat → Minibatch) (lt : LaunchType)
    (frameMode : Bool) (mbSize epoch subsetNum numSubsets totalSamples : Nat)
    (s s1 : ReaderState) (ev : List Event)
    (h : startDistributedMinibatchLoop packer lt frameMode mbSize epoch
      subsetNum numSubsets totalSamples s = Except.ok (s1, ev)) :
    s1.endOfEpoch = false ∧ s1.streams = s.streams ∧
    s1.nameToStreamId = s.nameToStreamId ∧ s1.prefetchTask.isSome = true := by
  unfold startDistributedMinibatchLoop startEpoch at h
  simp only [] at h
  by_cases hts : totalSamples ≤ 0
  · rw [if_pos hts] at h
    exact absurd h (by simp)
  · rw [if_neg hts] at h
    cases hp : s.prefetchTask with
    | none =>
      simp only [hp, Except.ok.injEq, Prod.mk.injEq] at h
      obtain ⟨h1, -⟩ := h
      subst h1
      cases lt <;> simp [launchPrefetch]
    | some t =>
      simp only [hp, Except.ok.injEq, Prod.mk.injEq] at h
      obtain ⟨h1, -⟩ := h
      subst h1
      cases lt <;> cases t <;> simp [launchPrefetch, taskGet]

/-- C2: once the reader is at end of epoch, GetMinibatch returns false at
once, leaves the state unchanged (so all later calls also return false)
and performs no action at all (it touches neither the output buffers nor
the prefetch task); a successful StartDistributedMinibatchLoop is what
resets the end-of-epoch flag to false. -/
theorem getMinibatch_eoe_latched (packer : Nat → Minibatch) (lt : LaunchType)
    (frameMode : Bool) (matrices : List (String × MatrixRef))
    (s : ReaderState) (h : s.endOfEpoch = true) :
    getMinibatch packer lt matrices s = Except.ok (false, s, []) ∧
    (∀ mbSize epoch subsetNum numSubsets totalSamples s1 ev,
      startDistributedMinibatchLoop packer lt frameMode mbSize epoch
        subsetNum numSubsets totalSamples s = Except.ok (s1, ev) →
      s1.endOfEpoch = false) := by
  constructor
  · simp [getMinibatch, h]
  · intro mbSize epoch subsetNum numSubsets totalSamples s1 ev hs
    exact (startLoop_ok_state packer lt frameMode mbSize epoch subsetNum
      numSubsets totalSamples s s1 ev hs).1

/-- Witness for C2: the sample reader at end of epoch returns false
unchanged, and restarting the loop clears the flag. -/
theorem getMinibatch_eoe_latched_witness :
    getMinibatch pkW LaunchType.async mxW rsEoE =
      Except.ok (false, rsEoE, []) :=
  (getMinibatch_eoe_latched pkW LaunchType.async true mxW rsEoE rfl).1

/-- C9: with the reader not at end of epoch, GetMinibatch on an empty
output-buffer collection dereferences the first element of an empty map
before any emptiness check: the call has no defined result. -/
theorem getMinibatch_empty_matrices_undefined (packer : Nat → Minibatch)
    (lt : LaunchType) (s : ReaderState) (h : s.endOfEpoch = false) :
    getMinibatch packer lt [] s = Except.error Fault.undefinedBehavior := by
  simp [getMinibatch, h]

/-- Witness for C9: the fresh sample reader with an empty buffer
collection. -/
theorem getMinibatch_empty_matrices_undefined_witness :
    getMinibatch pkW LaunchType.async [] rsInit =
      Except.error Fault.undefinedBehavior :=
  getMinibatch_empty_matrices_undefined pkW LaunchType.async rsInit rfl

/-- C7: if two caller-supplied output buffers report different device
ids, GetMinibatch aborts with a failed assertion; execution never reaches
minibatch delivery. -/
theorem getMinibatch_device_mismatch_fatal (packer : Nat → Minibatch)
    (lt : LaunchType) (matrices : List (String × MatrixRef)) (s : ReaderState)
    (first mx : String × MatrixRef) (h : s.endOfEpoch = false)
    (hhead : matrices.head? = some first) (hmem : mx ∈ matrices)
    (hdev : mx.2.deviceId ≠ first.2.deviceId) :
    getMinibatch packer lt matrices s = Except.error Fault.assertFailed := by
  have hany : matrices.any
      (fun m => decide (m.2.deviceId ≠ first.2.deviceId)) = true := by
    exact List.any_eq_true.mpr ⟨mx, hmem, by simpa using hdev⟩
  simp only [getMinibatch, h, hhead]
  rw [hany]
  simp

/-- Witness for C7: two buffers on devices -1 and 0. -/
theorem getMinibatch_device_mismatch_fatal_witness :
    getMinibatch pkW LaunchType.async mxBad rsInit =
      Except.error Fault.assertFailed :=
  getMinibatch_device_mismatch_fatal pkW LaunchType.async mxBad rsInit
    ("features", { deviceId := -1 }) ("labels", { deviceId := 0 })
    rfl rfl (by decide) (by decide)

/-- `deliveredOf` distributes over concatenation. -/
theorem deliveredOf_append (xs ys : List Event) :
    deliveredOf (xs ++ ys) = deliveredOf xs ++ deliveredOf ys := by
  simp [deliveredOf]

/-- Waiting on a task delivers no data by itself. -/
theorem deliveredOf_taskGet (packer : Nat → Minibatch) (s : ReaderState)
    (t : TaskState) : deliveredOf (taskGet packer s t).2.2 = [] := by
  cases t <;> rfl

/-- Launching a task delivers no data by itself. -/
theorem deliveredOf_launch (packer : Nat → Minibatch) (lt : LaunchType)
    (s : ReaderState) : deliveredOf (launchPrefetch packer lt s).2 = [] := by
  cases lt <;> rfl

/-- A successful copy loop only rewrites `m_layout`, emits one SetValue
per requested stream and nothing else. -/
theorem copyStreams_spec (minibatch : Minibatch) :
    ∀ (mxs : List (String × MatrixRef)) (s s2 : ReaderState)
      (evs : List Event),
    copyStreams minibatch s mxs = Except.ok (s2, evs) →
    s2.endOfEpoch = s.endOfEpoch ∧ s2.prefetchTask = s.prefetchTask ∧
    s2.reads = s.reads ∧ s2.streams = s.streams ∧
    s2.nameToStreamId = s.nameToStreamId ∧
    (deliveredOf evs).length = mxs.length ∧
    (∀ e ∈ evs, taskNeutral e = true) := by
  intro mxs
  induction mxs with
  | nil =>
    intro s s2 evs h
    simp only [copyStreams, Except.ok.injEq, Prod.mk.injEq] at h
    obtain ⟨h1, h2⟩ := h
    subst h1; subst h2
    simp [deliveredOf]
  | cons mx rest ih =>
    intro s s2 evs h
    simp only [copyStreams] at h
    cases hl : lookupId s.nameToStreamId mx.1 with
    | none => rw [hl] at h; exact absurd h (by simp)
    | some streamId =>
      rw [hl] at h
      simp only [] at h
      cases hd : minibatch.data[streamId]? with
      | none => rw [hd] at h; simp only [] at h; exact absurd h (by simp)
      | some stream =>
        cases hs : s.streams[streamId]? with
        | none => rw [hd, hs] at h; simp only [] at h; exact absurd h (by simp)
        | some sd =>
          rw [hd, hs] at h
          simp only [] at h
          cases hrec : copyStreams minibatch
              { s with layout := stream.layout } rest with
          | error f => rw [hrec] at h; simp only [] at h; exact absurd h (by simp)
          | ok pr =>
            rw [hrec] at h
            simp only [] at h
            simp only [Except.ok.injEq, Prod.mk.injEq] at h
            obtain ⟨h1, h2⟩ := h
            subst h1; subst h2
            have := ih { s with layout := stream.layout } pr.1 pr.2 (by
              rw [hrec])
            refine ⟨this.1, this.2.1, this.2.2.1, this.2.2.2.1,
              this.2.2.2.2.1, ?_, ?_⟩
            · simpa [deliveredOf] using this.2.2.2.2.2.1
            · intro e he
              rcases List.mem_cons.mp he with he | he
              · subst he; rfl
              · exact this.2.2.2.2.2.2 e he

/-- A SetValue event at the head of a trace heads the delivered list. -/
theorem deliveredOf_cons_setValue (c : SetValueCall) (evs : List Event) :
    deliveredOf (Event.setValue c :: evs) = c :: deliveredOf evs := rfl

/-- Every SetValue emitted by the copy loop takes its row count from the
published stream's sample shape and its column count from the copied
stream layout. -/
theorem copyStreams_dims (minibatch : Minibatch) :
    ∀ (mxs : List (String × MatrixRef)) (s s2 : ReaderState)
      (evs : List Event),
    copyStreams minibatch s mxs = Except.ok (s2, evs) →
    ∀ c ∈ deliveredOf evs, ∃ sid stream sd,
      lookupId s.nameToStreamId c.name = some sid ∧
      minibatch.data[sid]? = some stream ∧
      s.streams[sid]? = some sd ∧
      c.rows = sd.sampleLayout.numElements ∧
      c.cols = stream.layout.numCols := by
  intro mxs
  induction mxs with
  | nil =>
    intro s s2 evs h
    simp only [copyStreams, Except.ok.injEq, Prod.mk.injEq] at h
    obtain ⟨-, h2⟩ := h
    subst h2
    intro c hc
    simp [deliveredOf] at hc
  | cons mx rest ih =>
    intro s s2 evs h
    simp only [copyStreams] at h
    cases hl : lookupId s.nameToStreamId mx.1 with
    | none => rw [hl] at h; exact absurd h (by simp)
    | some streamId =>
      rw [hl] at h
      simp only [] at h
      cases hd : minibatch.data[streamId]? with
      | none => rw [hd] at h; simp only [] at h; exact absurd h (by simp)
      | some stream =>
        cases hs : s.streams[streamId]? with
        | none => rw [hd, hs] at h; simp only [] at h; exact absurd h (by simp)
        | some sd =>
          rw [hd, hs] at h
          simp only [] at h
          cases hrec : copyStreams minibatch
              { s with layout := stream.layout } rest with
          | error f => rw [hrec] at h; simp only [] at h; exact absurd h (by simp)
          | ok pr =>
            rw [hrec] at h
            simp only [] at h
            simp only [Except.ok.injEq, Prod.mk.injEq] at h
            obtain ⟨-, h2⟩ := h
            subst h2
            intro c hc
            rw [deliveredOf_cons_setValue] at hc
            rcases List.mem_cons.mp hc with hc1 | hc1
            · subst hc1
              exact ⟨streamId, stream, sd, hl, hd, hs, rfl, rfl⟩
            · exact ih { s with layout := stream.layout } pr.1 pr.2
                (by rw [hrec]) c hc1


/-- C6: every SetValue issued by a successful GetMinibatch call uses a
row count equal to the element count of the published stream description
sample layout and a column count equal to the column count of the packed
stream layout just copied into the current MBLayout, for every requested
stream of the delivered minibatch. -/
theorem getMinibatch_layout_consistency (packer : Nat → Minibatch)
    (lt : LaunchType) (matrices : List (String × MatrixRef)) (s : ReaderState)
    (t : TaskState) (ret : Bool) (sAfter : ReaderState) (evs : List Event)
    (ht : s.prefetchTask = some t)
    (h : getMinibatch packer lt matrices s = Except.ok (ret, sAfter, evs)) :
    ∀ c ∈ deliveredOf evs, ∃ sid stream sd,
      lookupId s.nameToStreamId c.name = some sid ∧
      ((taskGet packer s t).1).data[sid]? = some stream ∧
      s.streams[sid]? = some sd ∧
      c.rows = sd.sampleLayout.numElements ∧
      c.cols = stream.layout.numCols := by
  cases hoe : s.endOfEpoch with
  | true =>
    simp only [getMinibatch, hoe, if_true] at h
    simp only [Except.ok.injEq, Prod.mk.injEq] at h
    obtain ⟨-, -, hev⟩ := h
    intro c hc
    rw [← hev] at hc
    simp [deliveredOf] at hc
  | false =>
    cases hh : matrices.head? with
    | none => simp [getMinibatch, hoe, hh] at h
    | some first =>
      cases han : matrices.any
          (fun m => decide (m.2.deviceId ≠ first.2.deviceId)) with
      | true =>
        simp only [getMinibatch, hoe] at h
        rw [hh] at h
        simp only [] at h
        rw [han] at h
        simp at h
      | false =>
        simp only [getMinibatch, hoe] at h
        rw [hh] at h
        simp only [] at h
        rw [han] at h
        simp only [Bool.false_eq_true, if_false] at h
        rw [ht] at h
        simp only [] at h
        cases hde : ((taskGet packer s t).1).data.isEmpty with
        | true =>
          cases heo : ((taskGet packer s t).1).endOfEpoch with
          | true =>
            simp only [heo, hde, Bool.and_self, if_true] at h
            simp only [Except.ok.injEq, Prod.mk.injEq] at h
            obtain ⟨-, -, hev⟩ := h
            intro c hc
            rw [← hev, deliveredOf_taskGet] at hc
            simp at hc
          | false =>
            simp only [heo, hde, Bool.false_and, Bool.false_eq_true,
              if_false, if_true] at h
            simp only [Except.ok.injEq, Prod.mk.injEq] at h
            obtain ⟨-, -, hev⟩ := h
            intro c hc
            rw [← hev, deliveredOf_append, deliveredOf_append,
              deliveredOf_taskGet, deliveredOf_launch] at hc
            simp [deliveredOf] at hc
        | false =>
          simp only [hde, Bool.and_false, Bool.false_eq_true, if_false] at h
          split at h
          next f heq => exact absurd h (by simp)
          next s3 ev2 heq =>
            simp only [Except.ok.injEq, Prod.mk.injEq] at h
            obtain ⟨-, -, hev⟩ := h
            intro c hc
            rw [← hev, deliveredOf_append, deliveredOf_append,
              deliveredOf_taskGet, deliveredOf_launch] at hc
            simp only [List.append_nil, List.nil_append] at hc
            have hfields := taskGet_fields packer s t
            have hd2 := copyStreams_dims _ matrices _ s3 ev2 heq c hc
            obtain ⟨sid, stream, sd, h1, h2, h3, h4, h5⟩ := hd2
            refine ⟨sid, stream, sd, ?_, h2, ?_, h4, h5⟩
            · rw [← h1]
              cases hx : ((taskGet packer s t).1).endOfEpoch <;>
                simp [hx, hfields.2.2.2.1]
            · rw [← h3]
              cases hx : ((taskGet packer s t).1).endOfEpoch <;>
                simp [hx, hfields.2.2.1]


/-- Witness for C6: delivery of the first sample minibatch, at its single
SetValue call. -/
theorem getMinibatch_layout_consistency_witness :
    ∃ sid stream sd,
      lookupId (rsReady mbFull).nameToStreamId "features" = some sid ∧
      ((taskGet pkW (rsReady mbFull) (TaskState.ready mbFull)).1).data[sid]? =
        some stream ∧
      (rsReady mbFull).streams[sid]? = some sd ∧
      (3 : Nat) = sd.sampleLayout.numElements ∧
      (4 : Nat) = stream.layout.numCols :=
  getMinibatch_layout_consistency pkW LaunchType.async mxW (rsReady mbFull)
    (TaskState.ready mbFull) true rsAfterFirst evAfterFirst rfl rfl
    { name := "features", rows := 3, cols := 4, deviceId := -1, payload := 7 }
    (by decide)

/-- C3: when GetMinibatch receives a minibatch with the endOfEpoch flag
set, it delivers it and returns true if its data is non-empty (setting
the reader flag so that every following call returns false with the state
untouched), and returns false immediately if the data is empty; in all
cases the returned bool equals the non-emptiness of the received
minibatch data. -/
theorem getMinibatch_final_delivery (packer : Nat → Minibatch)
    (lt : LaunchType) (matrices : List (String × MatrixRef)) (s : ReaderState)
    (t : TaskState) (ret : Bool) (sAfter : ReaderState) (evs : List Event)
    (hoe : s.endOfEpoch = false)
    (ht : s.prefetchTask = some t)
    (h : getMinibatch packer lt matrices s = Except.ok (ret, sAfter, evs)) :
    ret = !((taskGet packer s t).1).data.isEmpty ∧
    (((taskGet packer s t).1).endOfEpoch = true →
      sAfter.endOfEpoch = true ∧
      (∀ ms, getMinibatch packer lt ms sAfter = Except.ok (false, sAfter, [])) ∧
      (((taskGet packer s t).1).data.isEmpty = true →
        ret = false ∧ evs = (taskGet packer s t).2.2) ∧
      (((taskGet packer s t).1).data.isEmpty = false →
        ret = true ∧ (deliveredOf evs).length = matrices.length)) := by
  cases hh : matrices.head? with
  | none => simp [getMinibatch, hoe, hh] at h
  | some first =>
    cases han : matrices.any
        (fun m => decide (m.2.deviceId ≠ first.2.deviceId)) with
    | true =>
      simp only [getMinibatch, hoe] at h
      rw [hh] at h
      simp only [] at h
      rw [han] at h
      simp at h
    | false =>
      simp only [getMinibatch, hoe] at h
      rw [hh] at h
      simp only [] at h
      rw [han] at h
      simp only [Bool.false_eq_true, if_false] at h
      rw [ht] at h
      simp only [] at h
      cases hde : ((taskGet packer s t).1).data.isEmpty with
      | true =>
        cases heo : ((taskGet packer s t).1).endOfEpoch with
        | true =>
          simp only [heo, hde, Bool.and_self, if_true] at h
          simp only [Except.ok.injEq, Prod.mk.injEq] at h
          obtain ⟨h1, h2, h3⟩ := h
          subst h1; subst h2; subst h3
          refine ⟨by simp [hde], fun _ => ⟨rfl, ?_, fun _ => ⟨rfl, rfl⟩,
            fun hcon => Bool.noConfusion hcon⟩⟩
          intro ms
          simp [getMinibatch]
        | false =>
          simp only [heo, hde, Bool.false_and, Bool.false_eq_true,
            if_false, if_true] at h
          simp only [Except.ok.injEq, Prod.mk.injEq] at h
          obtain ⟨h1, h2, h3⟩ := h
          subst h1; subst h2; subst h3
          refine ⟨by simp [hde], fun hcon => absurd hcon (by simp [heo])⟩
      | false =>
        simp only [hde, Bool.and_false, Bool.false_eq_true, if_false] at h
        split at h
        next f heq => exact absurd h (by simp)
        next s3 ev2 heq =>
          simp only [Except.ok.injEq, Prod.mk.injEq] at h
          obtain ⟨h1, h2, h3⟩ := h
          subst h1; subst h2; subst h3
          refine ⟨by simp [hde], fun heo2 => ?_⟩
          rw [heo2] at heq
          simp only [if_true] at heq
          have hspec := copyStreams_spec _ matrices _ s3 ev2 heq
          have hEnd : ((launchPrefetch packer lt s3).1).endOfEpoch = true := by
            rw [(launchPrefetch_fields packer lt s3).1, hspec.1]
          refine ⟨hEnd, ?_, fun hcon => Bool.noConfusion hcon,
            fun _ => ⟨rfl, ?_⟩⟩
          · intro ms
            simp [getMinibatch, hEnd]
          · rw [deliveredOf_append, deliveredOf_append, deliveredOf_taskGet,
              deliveredOf_launch, List.append_nil, List.nil_append]
            exact hspec.2.2.2.2.2.1


/-- Witness for C3: retrieval of the final partial sample minibatch. -/
theorem getMinibatch_final_delivery_witness :
    (true =
      !((taskGet pkW (rsReady mbLast) (TaskState.ready mbLast)).1).data.isEmpty) ∧
    (((taskGet pkW (rsReady mbLast) (TaskState.ready mbLast)).1).endOfEpoch =
        true →
      rsAfterLast.endOfEpoch = true ∧
      (∀ ms, getMinibatch pkW LaunchType.async ms rsAfterLast =
        Except.ok (false, rsAfterLast, [])) ∧
      (((taskGet pkW (rsReady mbLast)
          (TaskState.ready mbLast)).1).data.isEmpty = true →
        true = false ∧ evAfterLast =
          (taskGet pkW (rsReady mbLast) (TaskState.ready mbLast)).2.2) ∧
      (((taskGet pkW (rsReady mbLast)
          (TaskState.ready mbLast)).1).data.isEmpty = false →
        true = true ∧ (deliveredOf evAfterLast).length = mxW.length)) :=
  getMinibatch_final_delivery pkW LaunchType.async mxW (rsReady mbLast)
    (TaskState.ready mbLast) true rsAfterLast evAfterLast rfl rfl rfl

/-- Waiting on a task never launches one. -/
theorem taskGet_no_launch (packer : Nat → Minibatch) (s : ReaderState)
    (t : TaskState) : Event.launchTask ∉ (taskGet packer s t).2.2 := by
  cases t <;> simp [taskGet]

/-- Launching a prefetch emits a launch event. -/
theorem launchPrefetch_mem (packer : Nat → Minibatch) (lt : LaunchType)
    (s : ReaderState) : Event.launchTask ∈ (launchPrefetch packer lt s).2 := by
  cases lt <;> simp [launchPrefetch]

/-- A successful epoch restart over a still-valid prefetch task awaits
that task. -/
theorem startLoop_awaits (packer : Nat → Minibatch) (lt : LaunchType)
    (frameMode : Bool) (mbSize epoch subsetNum numSubsets totalSamples : Nat)
    (s s1 : ReaderState) (ev : List Event)
    (hsome : s.prefetchTask.isSome = true)
    (h : startDistributedMinibatchLoop packer lt frameMode mbSize epoch
      subsetNum numSubsets totalSamples s = Except.ok (s1, ev)) :
    Event.awaitTask ∈ ev := by
  unfold startDistributedMinibatchLoop startEpoch at h
  simp only [] at h
  by_cases hts : totalSamples ≤ 0
  · rw [if_pos hts] at h
    exact absurd h (by simp)
  · rw [if_neg hts] at h
    cases hp : s.prefetchTask with
    | none => rw [hp] at hsome; exact absurd hsome (by simp)
    | some t =>
      simp only [hp, Except.ok.injEq, Prod.mk.injEq] at h
      obtain ⟨-, h2⟩ := h
      subst h2
      cases t <;> simp [taskGet]

/-- C10: delivering the final non-empty minibatch of an epoch still
launches one further prefetch task, which subsequent (false-returning)
GetMinibatch calls leave untouched and which the next epoch start awaits;
meeting end of epoch with empty data returns false and leaves no valid
outstanding task, launching nothing. -/
theorem getMinibatch_tail_prefetch (packer : Nat → Minibatch)
    (lt : LaunchType) (matrices : List (String × MatrixRef)) (s : ReaderState)
    (t : TaskState) (ret : Bool) (sAfter : ReaderState) (evs : List Event)
    (hoe : s.endOfEpoch = false)
    (ht : s.prefetchTask = some t)
    (heo : ((taskGet packer s t).1).endOfEpoch = true)
    (h : getMinibatch packer lt matrices s = Except.ok (ret, sAfter, evs)) :
    (((taskGet packer s t).1).data.isEmpty = false →
      sAfter.prefetchTask.isSome = true ∧ Event.launchTask ∈ evs ∧
      (∀ ms, getMinibatch packer lt ms sAfter = Except.ok (false, sAfter, [])) ∧
      (∀ frameMode mbSize epoch subsetNum numSubsets totalSamples s1 ev,
        startDistributedMinibatchLoop packer lt frameMode mbSize epoch
          subsetNum numSubsets totalSamples sAfter = Except.ok (s1, ev) →
        Event.awaitTask ∈ ev)) ∧
    (((taskGet packer s t).1).data.isEmpty = true →
      ret = false ∧ sAfter.prefetchTask = none ∧ Event.launchTask ∉ evs) := by
  cases hh : matrices.head? with
  | none => simp [getMinibatch, hoe, hh] at h
  | some first =>
    cases han : matrices.any
        (fun m => decide (m.2.deviceId ≠ first.2.deviceId)) with
    | true =>
      simp only [getMinibatch, hoe] at h
      rw [hh] at h
      simp only [] at h
      rw [han] at h
      simp at h
    | false =>
      simp only [getMinibatch, hoe] at h
      rw [hh] at h
      simp only [] at h
      rw [han] at h
      simp only [Bool.false_eq_true, if_false] at h
      rw [ht] at h
      simp only [] at h
      cases hde : ((taskGet packer s t).1).data.isEmpty with
      | true =>
        simp only [heo, hde, Bool.and_self, if_true] at h
        simp only [Except.ok.injEq, Prod.mk.injEq] at h
        obtain ⟨h1, h2, h3⟩ := h
        subst h1; subst h2; subst h3
        refine ⟨fun hcon => Bool.noConfusion hcon,
          fun _ => ⟨rfl, ?_, ?_⟩⟩
        · exact (taskGet_fields packer s t).2.2.2.2
        · exact taskGet_no_launch packer s t
      | false =>
        simp only [heo, hde, Bool.and_false, Bool.false_eq_true, if_false,
          if_true] at h
        split at h
        next f heq => exact absurd h (by simp)
        next s3 ev2 heq =>
          simp only [Except.ok.injEq, Prod.mk.injEq] at h
          obtain ⟨h1, h2, h3⟩ := h
          subst h1; subst h2; subst h3
          have hspec := copyStreams_spec _ matrices _ s3 ev2 heq
          have hEnd : ((launchPrefetch packer lt s3).1).endOfEpoch = true := by
            rw [(launchPrefetch_fields packer lt s3).1, hspec.1]
          refine ⟨fun _ => ⟨(launchPrefetch_fields packer lt s3).2.2.2.2, ?_,
            ?_, ?_⟩, fun hcon => Bool.noConfusion hcon⟩
          · simp [launchPrefetch_mem packer lt s3]
          · intro ms
            simp [getMinibatch, hEnd]
          · intro frameMode mbSize epoch subsetNum numSubsets totalSamples
              s1 ev hs
            exact startLoop_awaits packer lt frameMode mbSize epoch subsetNum
              numSubsets totalSamples _ s1 ev
              (launchPrefetch_fields packer lt s3).2.2.2.2 hs


/-- Witness for C10: the final partial sample minibatch leaves a launched
task behind; clean exhaustion leaves none. -/
theorem getMinibatch_tail_prefetch_witness :
    (rsAfterLast.prefetchTask.isSome = true ∧
      Event.launchTask ∈ evAfterLast ∧
      (∀ ms, getMinibatch pkW LaunchType.async ms rsAfterLast =
        Except.ok (false, rsAfterLast, [])) ∧
      (∀ frameMode mbSize epoch subsetNum numSubsets totalSamples s1 ev,
        startDistributedMinibatchLoop pkW LaunchType.async frameMode mbSize
          epoch subsetNum numSubsets totalSamples rsAfterLast =
            Except.ok (s1, ev) →
        Event.awaitTask ∈ ev)) ∧
    (false = false ∧ rsAfterDrained.prefetchTask = none ∧
      Event.launchTask ∉ [Event.awaitTask]) :=
  ⟨(getMinibatch_tail_prefetch pkW LaunchType.async mxW (rsReady mbLast)
      (TaskState.ready mbLast) true rsAfterLast evAfterLast rfl rfl rfl
      rfl).1 rfl,
   (getMinibatch_tail_prefetch pkW LaunchType.async mxW (rsReady mbDrained)
      (TaskState.ready mbDrained) false rsAfterDrained [Event.awaitTask]
      rfl rfl rfl rfl).2 rfl⟩

/-- GetMinibatch never modifies the published streams or the name map. -/
theorem getMinibatch_preserves_streams (packer : Nat → Minibatch)
    (lt : LaunchType) (matrices : List (String × MatrixRef)) (s : ReaderState)
    (ret : Bool) (sAfter : ReaderState) (evs : List Event)
    (h : getMinibatch packer lt matrices s = Except.ok (ret, sAfter, evs)) :
    sAfter.streams = s.streams ∧ sAfter.nameToStreamId = s.nameToStreamId := by
  cases hoe : s.endOfEpoch with
  | true =>
    simp only [getMinibatch, hoe, if_true] at h
    simp only [Except.ok.injEq, Prod.mk.injEq] at h
    obtain ⟨-, h2, -⟩ := h
    subst h2
    exact ⟨rfl, rfl⟩
  | false =>
    cases hh : matrices.head? with
    | none => simp [getMinibatch, hoe, hh] at h
    | some first =>
      cases han : matrices.any
          (fun m => decide (m.2.deviceId ≠ first.2.deviceId)) with
      | true =>
        simp only [getMinibatch, hoe] at h
        rw [hh] at h
        simp only [] at h
        rw [han] at h
        simp at h
      | false =>
        simp only [getMinibatch, hoe] at h
        rw [hh] at h
        simp only [] at h
        rw [han] at h
        simp only [Bool.false_eq_true, if_false] at h
        cases hp : s.prefetchTask with
        | none => rw [hp] at h; simp only [] at h; exact absurd h (by simp)
        | some t =>
          rw [hp] at h
          simp only [] at h
          have hfields := taskGet_fields packer s t
          cases hde : ((taskGet packer s t).1).data.isEmpty with
          | true =>
            cases heo : ((taskGet packer s t).1).endOfEpoch with
            | true =>
              simp only [heo, hde, Bool.and_self, if_true] at h
              simp only [Except.ok.injEq, Prod.mk.injEq] at h
              obtain ⟨-, h2, -⟩ := h
              subst h2
              exact ⟨hfields.2.2.1, hfields.2.2.2.1⟩
            | false =>
              simp only [heo, hde, Bool.false_and, Bool.false_eq_true,
                if_false, if_true] at h
              simp only [Except.ok.injEq, Prod.mk.injEq] at h
              obtain ⟨-, h2, -⟩ := h
              subst h2
              constructor
              · rw [(launchPrefetch_fields packer lt _).2.2.1]
                exact hfields.2.2.1
              · rw [(launchPrefetch_fields packer lt _).2.2.2.1]
                exact hfields.2.2.2.1
          | false =>
            simp only [hde, Bool.and_false, Bool.false_eq_true, if_false] at h
            split at h
            next f heq => exact absurd h (by simp)
            next s3 ev2 heq =>
              simp only [Except.ok.injEq, Prod.mk.injEq] at h
              obtain ⟨-, h2, -⟩ := h
              subst h2
              have hspec := copyStreams_spec _ matrices _ s3 ev2 heq
              have hstr : s3.streams = s.streams := by
                rw [hspec.2.2.2.1]
                cases heo : ((taskGet packer s t).1).endOfEpoch <;>
                  simp [heo, hfields.2.2.1]
              have hmap : s3.nameToStreamId = s.nameToStreamId := by
                rw [hspec.2.2.2.2.1]
                cases heo : ((taskGet packer s t).1).endOfEpoch <;>
                  simp [heo, hfields.2.2.2.1]
              constructor
              · rw [(launchPrefetch_fields packer lt _).2.2.1]
                exact hstr
              · rw [(launchPrefetch_fields packer lt _).2.2.2.1]
                exact hmap

/-- No consumer operation modifies the published streams or name map. -/
theorem stepOp_preserves_streams (packer : Nat → Minibatch) (lt : LaunchType)
    (frameMode : Bool) (op : Op) (s : ReaderState) (r : StepRes)
    (h : stepOp packer lt frameMode op s = Except.ok r) :
    r.state.streams = s.streams ∧ r.state.nameToStreamId = s.nameToStreamId := by
  cases op with
  | startLoop mbSize epoch subsetNum numSubsets totalSamples =>
    simp only [stepOp] at h
    split at h
    · exact absurd h (by simp)
    · next s1 ev heq =>
      simp only [Except.ok.injEq] at h
      subst h
      have := startLoop_ok_state packer lt frameMode mbSize epoch subsetNum
        numSubsets totalSamples s s1 ev heq
      exact ⟨this.2.1, this.2.2.1⟩
  | getMb matrices =>
    simp only [stepOp] at h
    split at h
    · exact absurd h (by simp)
    · next b s1 ev heq =>
      simp only [Except.ok.injEq] at h
      subst h
      exact getMinibatch_preserves_streams packer lt matrices s b s1 ev heq

/-- No run of consumer operations modifies the published streams. -/
theorem run_preserves_streams (packer : Nat → Minibatch) (lt : LaunchType)
    (frameMode : Bool) :
    ∀ (ops : List Op) (s : ReaderState),
    ((run packer lt frameMode s ops).1).streams = s.streams := by
  intro ops
  induction ops with
  | nil => intro s; rfl
  | cons op rest ih =>
    intro s
    simp only [run]
    cases hst : stepOp packer lt frameMode op s with
    | error f => rfl
    | ok r =>
      simp only []
      rw [ih r.state]
      exact (stepOp_preserves_streams packer lt frameMode op s r hst).1

/-- C8: every stream description published by Init has dense storage,
whatever the bundler reported, and the published set survives any
sequence of StartDistributedMinibatchLoop / GetMinibatch calls
unchanged. -/
theorem initStreams_dense_immutable (bundlerStreams : List StreamDescription) :
    (∀ sd ∈ initStreams bundlerStreams,
      sd.storageType = StorageType.dense) ∧
    (∀ (packer : Nat → Minibatch) (lt : LaunchType) (frameMode : Bool)
      (s : ReaderState) (ops : List Op),
      s.streams = initStreams bundlerStreams →
      ((run packer lt frameMode s ops).1).streams =
        initStreams bundlerStreams) := by
  constructor
  · intro sd hsd
    simp only [initStreams, List.mem_map] at hsd
    obtain ⟨x, -, hx⟩ := hsd
    rw [← hx]
  · intro packer lt frameMode s ops hs
    rw [run_preserves_streams, hs]

/-- The outstanding-task scan composes over concatenation. -/
theorem pendStep_append (ys : List Event) :
    ∀ (xs : List Event) (p : Nat),
    pendStep p (xs ++ ys) =
      Option.bind (pendStep p xs) (fun q => pendStep q ys) := by
  intro xs
  induction xs with
  | nil => intro p; simp [pendStep]
  | cons x rest ih =>
    intro p
    cases x with
    | launchTask => by_cases hp : p = 0 <;> simp [pendStep, hp, ih]
    | awaitTask => by_cases hp : p = 1 <;> simp [pendStep, hp, ih]
    | readExec i => simp [pendStep, ih]
    | randomizerStart c => simp [pendStep, ih]
    | packerCreated b => simp [pendStep, ih]
    | setValue c => simp [pendStep, ih]

/-- Task-neutral events leave the outstanding count unchanged. -/
theorem pendStep_neutral :
    ∀ (evs : List Event) (p : Nat),
    (∀ e ∈ evs, taskNeutral e = true) → pendStep p evs = some p := by
  intro evs
  induction evs with
  | nil => intro p _; rfl
  | cons e rest ih =>
    intro p hall
    have htail : ∀ x ∈ rest, taskNeutral x = true :=
      fun x hx => hall x (List.mem_cons_of_mem _ hx)
    cases e with
    | launchTask =>
      exact absurd (hall _ (List.mem_cons_self _ _)) (by simp [taskNeutral])
    | awaitTask =>
      exact absurd (hall _ (List.mem_cons_self _ _)) (by simp [taskNeutral])
    | readExec i => simpa [pendStep] using ih p htail
    | randomizerStart c => simpa [pendStep] using ih p htail
    | packerCreated b => simpa [pendStep] using ih p htail
    | setValue c => simpa [pendStep] using ih p htail


/-- An epoch restart moves the outstanding-task count from its current
value to exactly one, never holding two. -/
theorem startLoop_pend (packer : Nat → Minibatch) (lt : LaunchType)
    (frameMode : Bool) (mbSize epoch subsetNum numSubsets totalSamples : Nat)
    (s s1 : ReaderState) (ev : List Event)
    (h : startDistributedMinibatchLoop packer lt frameMode mbSize epoch
      subsetNum numSubsets totalSamples s = Except.ok (s1, ev)) :
    pendStep (pend s) ev = some (pend s1) := by
  unfold startDistributedMinibatchLoop startEpoch at h
  simp only [] at h
  by_cases hts : totalSamples ≤ 0
  · rw [if_pos hts] at h
    exact absurd h (by simp)
  · rw [if_neg hts] at h
    cases hp : s.prefetchTask with
    | none =>
      simp only [hp, Except.ok.injEq, Prod.mk.injEq] at h
      obtain ⟨h1, h2⟩ := h
      subst h1; subst h2
      cases lt <;>
        simp [pend, hp, pendStep, launchPrefetch, taskNeutral]
    | some t =>
      simp only [hp, Except.ok.injEq, Prod.mk.injEq] at h
      obtain ⟨h1, h2⟩ := h
      subst h1; subst h2
      cases lt <;> cases t <;>
        simp [pend, hp, pendStep, launchPrefetch, taskGet, taskNeutral]

/-- A successful GetMinibatch moves the outstanding-task count to match
the successor state, awaiting before relaunching. -/
theorem getMinibatch_pend (packer : Nat → Minibatch) (lt : LaunchType)
    (matrices : List (String × MatrixRef)) (s : ReaderState)
    (ret : Bool) (sAfter : ReaderState) (evs : List Event)
    (h : getMinibatch packer lt matrices s = Except.ok (ret, sAfter, evs)) :
    pendStep (pend s) evs = some (pend sAfter) := by
  cases hoe : s.endOfEpoch with
  | true =>
    simp only [getMinibatch, hoe, if_true] at h
    simp only [Except.ok.injEq, Prod.mk.injEq] at h
    obtain ⟨-, h2, h3⟩ := h
    subst h2; subst h3
    rfl
  | false =>
    cases hh : matrices.head? with
    | none => simp [getMinibatch, hoe, hh] at h
    | some first =>
      cases han : matrices.any
          (fun m => decide (m.2.deviceId ≠ first.2.deviceId)) with
      | true =>
        simp only [getMinibatch, hoe] at h
        rw [hh] at h
        simp only [] at h
        rw [han] at h
        simp at h
      | false =>
        simp only [getMinibatch, hoe] at h
        rw [hh] at h
        simp only [] at h
        rw [han] at h
        simp only [Bool.false_eq_true, if_false] at h
        cases hp : s.prefetchTask with
        | none => rw [hp] at h; simp only [] at h; exact absurd h (by simp)
        | some t =>
          rw [hp] at h
          simp only [] at h
          have hfields := taskGet_fields packer s t
          cases hde : ((taskGet packer s t).1).data.isEmpty with
          | true =>
            cases heo : ((taskGet packer s t).1).endOfEpoch with
            | true =>
              simp only [heo, hde, Bool.and_self, if_true] at h
              simp only [Except.ok.injEq, Prod.mk.injEq] at h
              obtain ⟨-, h2, h3⟩ := h
              subst h2; subst h3
              cases t <;>
                simp [pend, hp, pendStep, taskGet]
            | false =>
              simp only [heo, hde, Bool.false_and, Bool.false_eq_true,
                if_false, if_true] at h
              simp only [Except.ok.injEq, Prod.mk.injEq] at h
              obtain ⟨-, h2, h3⟩ := h
              subst h2; subst h3
              cases t <;> cases lt <;>
                simp [pend, hp, pendStep, taskGet, launchPrefetch]
          | false =>
            simp only [hde, Bool.and_false, Bool.false_eq_true, if_false] at h
            split at h
            next f heq => exact absurd h (by simp)
            next s3 ev2 heq =>
              simp only [Except.ok.injEq, Prod.mk.injEq] at h
              obtain ⟨-, h2, h3⟩ := h
              subst h2; subst h3
              have hspec := copyStreams_spec _ matrices _ s3 ev2 heq
              have hneu := pendStep_neutral ev2 0 hspec.2.2.2.2.2.2
              rw [pendStep_append, pendStep_append]
              have h1 : pendStep (pend s) (taskGet packer s t).2.2 = some 0 := by
                cases t <;> simp [pend, hp, pendStep, taskGet]
              rw [h1]
              dsimp only [Option.bind]
              rw [hneu]
              dsimp only [Option.bind]
              cases lt <;> simp [pend, pendStep, launchPrefetch]

/-- Any successful consumer operation keeps the task trace admissible. -/
theorem stepOp_pend (packer : Nat → Minibatch) (lt : LaunchType)
    (frameMode : Bool) (op : Op) (s : ReaderState) (r : StepRes)
    (h : stepOp packer lt frameMode op s = Except.ok r) :
    pendStep (pend s) r.events = some (pend r.state) := by
  cases op with
  | startLoop mbSize epoch subsetNum numSubsets totalSamples =>
    simp only [stepOp] at h
    split at h
    · exact absurd h (by simp)
    · next s1 ev heq =>
      simp only [Except.ok.injEq] at h
      subst h
      exact startLoop_pend packer lt frameMode mbSize epoch subsetNum
        numSubsets totalSamples s s1 ev heq
  | getMb matrices =>
    simp only [stepOp] at h
    split at h
    · exact absurd h (by simp)
    · next b s1 ev heq =>
      simp only [Except.ok.injEq] at h
      subst h
      exact getMinibatch_pend packer lt matrices s b s1 ev heq

/-- Over a whole run, the event trace scans without overlap violation and
ends at the outstanding count of the final state. -/
theorem run_pend (packer : Nat → Minibatch) (lt : LaunchType)
    (frameMode : Bool) :
    ∀ (ops : List Op) (s : ReaderState),
    pendStep (pend s) (run packer lt frameMode s ops).2 =
      some (pend (run packer lt frameMode s ops).1) := by
  intro ops
  induction ops with
  | nil => intro s; rfl
  | cons op rest ih =>
    intro s
    simp only [run]
    cases hst : stepOp packer lt frameMode op s with
    | error f => rfl
    | ok r =>
      simp only []
      rw [pendStep_append, stepOp_pend packer lt frameMode op s r hst]
      dsimp only [Option.bind]
      exact ih r.state

/-- C1: from a freshly initialised reader, every interleaving of
StartDistributedMinibatchLoop and GetMinibatch calls yields an event
trace in which prefetch tasks never overlap: each launch happens with no
task outstanding and each await consumes the single outstanding task. -/
theorem prefetch_tasks_never_overlap (packer : Nat → Minibatch)
    (lt : LaunchType) (frameMode : Bool)
    (bundlerStreams : List StreamDescription) (numSeqs0 : Nat)
    (ops : List Op) :
    (pendStep 0
      (run packer lt frameMode (initReader bundlerStreams numSeqs0)
        ops).2).isSome = true := by
  have hrun := run_pend packer lt frameMode ops
    (initReader bundlerStreams numSeqs0)
  have h0 : pend (initReader bundlerStreams numSeqs0) = 0 := rfl
  rw [h0] at hrun
  rw [hrun]
  rfl


/-- Witness for C8: the sample sparse bundler stream is published dense
and survives a GetMinibatch call. -/
theorem initStreams_dense_immutable_witness :
    ({ sdW with storageType := StorageType.dense } :
      StreamDescription).storageType = StorageType.dense ∧
    ((run pkW LaunchType.async true rsInit [Op.getMb mxW]).1).streams =
      initStreams [sdW] :=
  ⟨(initStreams_dense_immutable [sdW]).1 _ (by simp [initStreams]),
   (initStreams_dense_immutable [sdW]).2 pkW LaunchType.async true rsInit
     [Op.getMb mxW] rfl⟩

/-- Past the guards, GetMinibatch is its tail applied to the got task. -/
theorem getMinibatch_eq_tail (packer : Nat → Minibatch) (lt : LaunchType)
    (matrices : List (String × MatrixRef)) (s : ReaderState)
    (first : String × MatrixRef) (t : TaskState)
    (hoe : s.endOfEpoch = false) (hh : matrices.head? = some first)
    (han : matrices.any
      (fun m => decide (m.2.deviceId ≠ first.2.deviceId)) = false)
    (ht : s.prefetchTask = some t) :
    getMinibatch packer lt matrices s =
      gmTail packer lt matrices (taskGet packer s t).1
        (taskGet packer s t).2.1 (taskGet packer s t).2.2 := by
  simp only [getMinibatch, hoe]
  rw [hh]
  simp only []
  rw [han]
  simp only [Bool.false_eq_true, if_false]
  rw [ht]
  simp only [gmTail]
  cases hde : ((taskGet packer s t).1).data.isEmpty with
  | true =>
    cases heo : ((taskGet packer s t).1).endOfEpoch with
    | true =>
      simp only [hde, heo, Bool.and_self, if_true]
    | false =>
      simp only [hde, heo, Bool.false_and, Bool.false_eq_true, if_false,
        if_true]
  | false =>
    cases heo : ((taskGet packer s t).1).endOfEpoch with
    | true =>
      simp only [hde, heo, Bool.and_false, Bool.false_eq_true, if_false,
        if_true]
      cases hcp : copyStreams ((taskGet packer s t).1)
          { (taskGet packer s t).2.1 with endOfEpoch := true } matrices with
      | error f => rfl
      | ok pr =>
        cases pr
        rfl
    | false =>
      simp only [hde, heo, Bool.and_false, Bool.false_and,
        Bool.false_eq_true, if_false]
      cases hcp : copyStreams ((taskGet packer s t).1)
          ((taskGet packer s t).2.1) matrices with
      | error f => rfl
      | ok pr =>
        cases pr
        rfl


/-- A reader with an empty task slot is mode-related to itself. -/
theorem related_of_task_none (packer : Nat → Minibatch) (s : ReaderState)
    (h : s.prefetchTask = none) : Related packer s s :=
  ⟨rfl, rfl, rfl, rfl, Or.inl ⟨h, h, rfl⟩⟩

/-- Launching from one state in the two modes yields related readers. -/
theorem launch_mode_related (packer : Nat → Minibatch) (s : ReaderState) :
    Related packer ((launchPrefetch packer LaunchType.async s).1)
      ((launchPrefetch packer LaunchType.deferred s).1) :=
  ⟨rfl, rfl, rfl, rfl, Or.inr ⟨rfl, rfl, rfl⟩⟩

/-- The GetMinibatch tail behaves identically in the two launch modes:
same faults, same result, same delivered data and layout, related
states. -/
theorem gmTail_mode_related (packer : Nat → Minibatch)
    (matrices : List (String × MatrixRef)) (mb : Minibatch) (w : ReaderState)
    (ev1a ev1d : List Event) (hw : w.prefetchTask = none)
    (hda : deliveredOf ev1a = []) (hdd : deliveredOf ev1d = []) :
    (∃ f, gmTail packer LaunchType.async matrices mb w ev1a =
        Except.error f ∧
      gmTail packer LaunchType.deferred matrices mb w ev1d =
        Except.error f) ∨
    (∃ qa qd,
      gmTail packer LaunchType.async matrices mb w ev1a = Except.ok qa ∧
      gmTail packer LaunchType.deferred matrices mb w ev1d = Except.ok qd ∧
      qa.1 = qd.1 ∧ deliveredOf qa.2.2 = deliveredOf qd.2.2 ∧
      (qa.2.1).layout = (qd.2.1).layout ∧ Related packer qa.2.1 qd.2.1) := by
  unfold gmTail
  cases hde : mb.data.isEmpty with
  | true =>
    cases heo : mb.endOfEpoch with
    | true =>
      simp only [Bool.and_self, if_true]
      right
      exact ⟨(false, { w with endOfEpoch := true }, ev1a),
        (false, { w with endOfEpoch := true }, ev1d), rfl, rfl, rfl,
        hda.trans hdd.symm, rfl, related_of_task_none packer _ hw⟩
    | false =>
      simp only [Bool.false_and, Bool.false_eq_true, if_false, if_true]
      right
      refine ⟨_, _, rfl, rfl, rfl, ?_, rfl, launch_mode_related packer w⟩
      simp [deliveredOf_append, hda, hdd, deliveredOf_launch]
  | false =>
    cases heo : mb.endOfEpoch with
    | true =>
      simp only [Bool.and_false, Bool.false_eq_true, if_false, if_true]
      cases hcp : copyStreams mb { w with endOfEpoch := true } matrices with
      | error f => exact Or.inl ⟨f, rfl, rfl⟩
      | ok pr =>
        right
        refine ⟨_, _, rfl, rfl, rfl, ?_, rfl, launch_mode_related packer pr.1⟩
        simp [deliveredOf_append, hda, hdd, deliveredOf_launch]
    | false =>
      simp only [Bool.and_false, Bool.false_and, Bool.false_eq_true, if_false]
      cases hcp : copyStreams mb w matrices with
      | error f => exact Or.inl ⟨f, rfl, rfl⟩
      | ok pr =>
        right
        refine ⟨_, _, rfl, rfl, rfl, ?_, rfl, launch_mode_related packer pr.1⟩
        simp [deliveredOf_append, hda, hdd, deliveredOf_launch]


/-- GetMinibatch on mode-related readers: same faults, same bool result,
same delivered data and layout, related successor states. -/
theorem getMinibatch_mode_related (packer : Nat → Minibatch)
    (matrices : List (String × MatrixRef)) (a d : ReaderState)
    (hR : Related packer a d) :
    (∃ f, getMinibatch packer LaunchType.async matrices a = Except.error f ∧
      getMinibatch packer LaunchType.deferred matrices d = Except.error f) ∨
    (∃ qa qd,
      getMinibatch packer LaunchType.async matrices a = Except.ok qa ∧
      getMinibatch packer LaunchType.deferred matrices d = Except.ok qd ∧
      qa.1 = qd.1 ∧ deliveredOf qa.2.2 = deliveredOf qd.2.2 ∧
      (qa.2.1).layout = (qd.2.1).layout ∧ Related packer qa.2.1 qd.2.1) := by
  obtain ⟨h1, h2, h3, h4, h5⟩ := hR
  cases hoe : d.endOfEpoch with
  | true =>
    have hoea : a.endOfEpoch = true := h1.trans hoe
    right
    exact ⟨(false, a, []), (false, d, []), by simp [getMinibatch, hoea],
      by simp [getMinibatch, hoe], rfl, rfl, h2, h1, h2, h3, h4, h5⟩
  | false =>
    have hoea : a.endOfEpoch = false := h1.trans hoe
    cases hh : matrices.head? with
    | none =>
      exact Or.inl ⟨Fault.undefinedBehavior,
        by simp [getMinibatch, hoea, hh], by simp [getMinibatch, hoe, hh]⟩
    | some first =>
      cases han : matrices.any
          (fun m => decide (m.2.deviceId ≠ first.2.deviceId)) with
      | true =>
        left
        refine ⟨Fault.assertFailed, ?_, ?_⟩
        · simp only [getMinibatch, hoea]
          rw [hh]
          simp only []
          rw [han]
          simp
        · simp only [getMinibatch, hoe]
          rw [hh]
          simp only []
          rw [han]
          simp
      | false =>
        rcases h5 with ⟨hna, hnd, hrr⟩ | ⟨hsa, hsd, hrr⟩
        · left
          refine ⟨Fault.assertFailed, ?_, ?_⟩
          · simp only [getMinibatch, hoea]
            rw [hh]
            simp only []
            rw [han]
            simp only [Bool.false_eq_true, if_false]
            rw [hna]
          · simp only [getMinibatch, hoe]
            rw [hh]
            simp only []
            rw [han]
            simp only [Bool.false_eq_true, if_false]
            rw [hnd]
        · have hga := getMinibatch_eq_tail packer LaunchType.async matrices a
            first (TaskState.ready (packer d.reads)) hoea hh han hsa
          have hgd := getMinibatch_eq_tail packer LaunchType.deferred matrices
            d first TaskState.deferredPending hoe hh han hsd
          simp only [taskGet] at hga hgd
          have hw : ({ a with prefetchTask := none } : ReaderState) =
              { d with prefetchTask := none, reads := d.reads + 1 } := by
            cases a; cases d; simp_all
          rw [hga, hgd, hw]
          exact gmTail_mode_related packer matrices (packer d.reads) _ _ _
            rfl rfl rfl


/-- With no outstanding task, an epoch restart is its tail directly. -/
theorem startLoop_eq_tail_none (packer : Nat → Minibatch) (lt : LaunchType)
    (frameMode : Bool) (mbSize epoch subsetNum numSubsets totalSamples : Nat)
    (s : ReaderState) (hn : s.prefetchTask = none) :
    startDistributedMinibatchLoop packer lt frameMode mbSize epoch subsetNum
        numSubsets totalSamples s =
      slTail packer lt frameMode
        { workerRank := subsetNum, numberOfWorkers := numSubsets,
          minibatchSizeInSamples := mbSize,
          totalEpochSizeInSamples := totalSamples, epochIndex := epoch }
        { s with endOfEpoch := false } [] := by
  unfold startDistributedMinibatchLoop slTail
  simp only []
  rw [hn]

/-- With an outstanding task, an epoch restart waits it out and is then
its tail. -/
theorem startLoop_eq_tail_some (packer : Nat → Minibatch) (lt : LaunchType)
    (frameMode : Bool) (mbSize epoch subsetNum numSubsets totalSamples : Nat)
    (s : ReaderState) (t : TaskState) (ht : s.prefetchTask = some t) :
    startDistributedMinibatchLoop packer lt frameMode mbSize epoch subsetNum
        numSubsets totalSamples s =
      slTail packer lt frameMode
        { workerRank := subsetNum, numberOfWorkers := numSubsets,
          minibatchSizeInSamples := mbSize,
          totalEpochSizeInSamples := totalSamples, epochIndex := epoch }
        (taskGet packer { s with endOfEpoch := false } t).2.1
        (taskGet packer { s with endOfEpoch := false } t).2.2 := by
  unfold startDistributedMinibatchLoop slTail
  simp only []
  rw [ht]

/-- The epoch-restart tail behaves identically in the two launch modes. -/
theorem slTail_mode_related (packer : Nat → Minibatch) (frameMode : Bool)
    (config : EpochConfiguration) (w : ReaderState) (ev1a ev1d : List Event)
    (hda : deliveredOf ev1a = []) (hdd : deliveredOf ev1d = []) :
    (∃ f, slTail packer LaunchType.async frameMode config w ev1a =
        Except.error f ∧
      slTail packer LaunchType.deferred frameMode config w ev1d =
        Except.error f) ∨
    (∃ pa pd,
      slTail packer LaunchType.async frameMode config w ev1a =
        Except.ok pa ∧
      slTail packer LaunchType.deferred frameMode config w ev1d =
        Except.ok pd ∧
      deliveredOf pa.2 = deliveredOf pd.2 ∧ (pa.1).layout = (pd.1).layout ∧
      Related packer pa.1 pd.1) := by
  unfold slTail
  cases hse : startEpoch frameMode config with
  | error f => exact Or.inl ⟨f, rfl, rfl⟩
  | ok ev2 =>
    right
    have hev2 : deliveredOf ev2 = [] := by
      unfold startEpoch at hse
      by_cases hts : config.totalEpochSizeInSamples ≤ 0
      · rw [if_pos hts] at hse
        exact absurd hse (by simp)
      · rw [if_neg hts] at hse
        simp only [Except.ok.injEq] at hse
        subst hse
        rfl
    refine ⟨_, _, rfl, rfl, ?_, rfl, launch_mode_related packer w⟩
    simp [deliveredOf_append, hda, hdd, hev2, deliveredOf_launch]

/-- Epoch restart on mode-related readers: same faults or related
successor states with equal observables. -/
theorem startLoop_mode_related (packer : Nat → Minibatch) (frameMode : Bool)
    (mbSize epoch subsetNum numSubsets totalSamples : Nat)
    (a d : ReaderState) (hR : Related packer a d) :
    (∃ f, startDistributedMinibatchLoop packer LaunchType.async frameMode
        mbSize epoch subsetNum numSubsets totalSamples a = Except.error f ∧
      startDistributedMinibatchLoop packer LaunchType.deferred frameMode
        mbSize epoch subsetNum numSubsets totalSamples d = Except.error f) ∨
    (∃ pa pd,
      startDistributedMinibatchLoop packer LaunchType.async frameMode
        mbSize epoch subsetNum numSubsets totalSamples a = Except.ok pa ∧
      startDistributedMinibatchLoop packer LaunchType.deferred frameMode
        mbSize epoch subsetNum numSubsets totalSamples d = Except.ok pd ∧
      deliveredOf pa.2 = deliveredOf pd.2 ∧ (pa.1).layout = (pd.1).layout ∧
      Related packer pa.1 pd.1) := by
  obtain ⟨h1, h2, h3, h4, h5⟩ := hR
  rcases h5 with ⟨hna, hnd, hrr⟩ | ⟨hsa, hsd, hrr⟩
  · have had : a = d := by cases a; cases d; simp_all
    subst had
    rw [startLoop_eq_tail_none packer LaunchType.async frameMode mbSize epoch
      subsetNum numSubsets totalSamples a hna,
      startLoop_eq_tail_none packer LaunchType.deferred frameMode mbSize
      epoch subsetNum numSubsets totalSamples a hna]
    exact slTail_mode_related packer frameMode _ _ _ _ rfl rfl
  · rw [startLoop_eq_tail_some packer LaunchType.async frameMode mbSize epoch
      subsetNum numSubsets totalSamples a (TaskState.ready (packer d.reads))
      hsa,
      startLoop_eq_tail_some packer LaunchType.deferred frameMode mbSize
      epoch subsetNum numSubsets totalSamples d TaskState.deferredPending hsd]
    simp only [taskGet]
    have hw : ({ a with endOfEpoch := false, prefetchTask := none } :
        ReaderState) =
        { d with
            endOfEpoch := false, prefetchTask := none,
            reads := d.reads + 1 } := by
      cases a; cases d; simp_all
    rw [hw]
    exact slTail_mode_related packer frameMode _ _ _ _ rfl rfl


/-- One consumer call on mode-related readers gives equal observations
and related successors. -/
theorem stepOp_mode_related (packer : Nat → Minibatch) (frameMode : Bool)
    (op : Op) (a d : ReaderState) (hR : Related packer a d) :
    (∃ f, stepOp packer LaunchType.async frameMode op a = Except.error f ∧
      stepOp packer LaunchType.deferred frameMode op d = Except.error f) ∨
    (∃ ra rd, stepOp packer LaunchType.async frameMode op a = Except.ok ra ∧
      stepOp packer LaunchType.deferred frameMode op d = Except.ok rd ∧
      obsOf ra = obsOf rd ∧ Related packer ra.state rd.state) := by
  cases op with
  | startLoop mbSize epoch subsetNum numSubsets totalSamples =>
    rcases startLoop_mode_related packer frameMode mbSize epoch subsetNum
        numSubsets totalSamples a d hR with
      ⟨f, hfa, hfd⟩ | ⟨pa, pd, hoa, hod, hdel, hlay, hrel⟩
    · exact Or.inl ⟨f, by simp [stepOp, hfa], by simp [stepOp, hfd]⟩
    · obtain ⟨pa1, pa2⟩ := pa
      obtain ⟨pd1, pd2⟩ := pd
      right
      refine ⟨{ state := pa1, events := pa2, ret := none },
        { state := pd1, events := pd2, ret := none },
        by simp [stepOp, hoa], by simp [stepOp, hod], ?_, hrel⟩
      simp only at hlay
      simp [obsOf, hlay]
  | getMb matrices =>
    rcases getMinibatch_mode_related packer matrices a d hR with
      ⟨f, hfa, hfd⟩ | ⟨qa, qd, hoa, hod, hq1, hdel, hlay, hrel⟩
    · exact Or.inl ⟨f, by simp [stepOp, hfa], by simp [stepOp, hfd]⟩
    · obtain ⟨qa1, qa2, qa3⟩ := qa
      obtain ⟨qd1, qd2, qd3⟩ := qd
      right
      refine ⟨{ state := qa2, events := qa3, ret := some qa1 },
        { state := qd2, events := qd3, ret := some qd1 },
        by simp [stepOp, hoa], by simp [stepOp, hod], ?_, hrel⟩
      simp only at hq1 hdel hlay
      simp [obsOf, hq1, hdel, hlay]

/-- Whole-run observations coincide for mode-related readers. -/
theorem observe_mode_related (packer : Nat → Minibatch) (frameMode : Bool) :
    ∀ (ops : List Op) (a d : ReaderState), Related packer a d →
    observe packer LaunchType.async frameMode a ops =
      observe packer LaunchType.deferred frameMode d ops := by
  intro ops
  induction ops with
  | nil => intro a d _; rfl
  | cons op rest ih =>
    intro a d hR
    rcases stepOp_mode_related packer frameMode op a d hR with
      ⟨f, hfa, hfd⟩ | ⟨ra, rd, hoa, hod, hobs, hrel⟩
    · simp [observe, hfa, hfd]
    · simp only [observe, hoa, hod]
      rw [hobs, ih ra.state rd.state hrel]

/-- C5: from a freshly initialised reader, the observable trace of any
sequence of consumer calls - bool results, delivered data, layouts,
end-of-epoch boundaries and faults - is identical with prefetch enabled
(async launch) and disabled (deferred launch); the modes differ only in
when ReadMinibatch executes. -/
theorem prefetch_mode_equivalence (packer : Nat → Minibatch)
    (frameMode : Bool) (bundlerStreams : List StreamDescription)
    (numSeqs0 : Nat) (ops : List Op) :
    observe packer LaunchType.async frameMode
        (initReader bundlerStreams numSeqs0) ops =
      observe packer LaunchType.deferred frameMode
        (initReader bundlerStreams numSeqs0) ops :=
  observe_mode_related packer frameMode ops _ _
    (related_of_task_none packer _ rfl)

end CNTK
